import Mathlib

/-!
Verification of the order-creation / inventory-reconciliation core of the
Midwest grocery back-office server (a Node/Express + Mongoose application).

The development shallowly embeds, in Lean:
  * the JavaScript 32-bit signed-integer ("ToInt32") arithmetic used by the
    product fingerprint computation (src/models/Product.js, pre-save hook, and
    scripts/update-product-hashes.js);
  * the data model: products, orders (Order_Standalone schema), order items
    (OrderItem schema), held in an explicit database state record;
  * the two controller operations of src/controllers/ordersController.js:
    createOrder (cart validation, per-line product resolution with the
    fallback chain, persistence of the order and its items) and
    updateOrderPayment (enum validation, device-ownership check, and the
    transaction-guarded stock decrement on entry into the Processing status).

Conventions of the embedding:
  * JavaScript numbers that reach this core are finite rationals or NaN; we
    model a number as an Option Rat, with none standing for NaN (JSON cannot
    carry NaN or infinities, so non-finite values only arise from coercing a
    non-numeric string).
  * A JSON leaf value that may be a string or a number is modelled by PVal; a
    string carries its JavaScript numeric coercion (the result of Number(s))
    as data, since we do not re-implement the JS string-to-number grammar.
  * MongoDB operations are modelled as pure functions on the database state;
    mongoose withTransaction is modelled by its contract: the transaction
    body either produces the whole new state (commit) or an error, in which
    case the state is unchanged (abort).
  * console logging, the debug-only read of ten products in createOrder, and
    the post-response FCM notification send are effect-free with respect to
    the database state and the HTTP response, and are omitted.
-/

namespace Midwest

/-! ## Definitions: the shallow embedding -/

/-! ### JavaScript 32-bit integer arithmetic -/

/-- ECMAScript ToInt32: reduce an integer modulo 2^32 into [-2^31, 2^31).
This is the effect of the JS expressions x & x and x | 0, and of the
operand/result conversion of the << operator. -/
def toInt32 (x : Int) : Int :=
  (x + 2147483648) % 4294967296 - 2147483648

/-- One step of the fingerprint loop in productSchema.pre of
src/models/Product.js: hash = ((hash << 5) - hash) + char; hash = hash & hash.
hash << 5 truncates the shifted value to 32 bits; the subtraction and
addition are exact in double precision at these magnitudes; the final
hash & hash truncates again. -/
def dartHashStep (h : Int) (c : Nat) : Int :=
  toInt32 (toInt32 (h * 32) - h + (c : Int))

/-- UTF-16 code units of a string, as used by JS charCodeAt.  The strings
hashed by the repository (hex ObjectId strings) are ASCII, where the code
unit is the code point. -/
def charCodes (s : String) : List Nat :=
  s.data.map Char.toNat

/-- The signed accumulator after the fingerprint loop of
src/models/Product.js (identical loop in scripts/update-product-hashes.js). -/
def dartHashSigned (s : String) : Int :=
  (charCodes s).foldl dartHashStep 0

/-- The stored fingerprint: this.dart_hash = Math.abs(hash). -/
def dartHash (s : String) : Int :=
  (dartHashSigned s).natAbs

/-- The fingerprint step as worded by the specification: h = (h << 5) - h + c,
the whole value then truncated once to a 32-bit signed integer with
two's-complement wrap-around. -/
def specHashStep (h : Int) (c : Nat) : Int :=
  toInt32 (h * 32 - h + (c : Int))

/-- The accumulator of the specification's algorithm. -/
def specHashSigned (s : String) : Int :=
  (charCodes s).foldl specHashStep 0

/-! ### JSON / JavaScript payload values -/

/-- A JSON leaf value as it reaches the order controller: a (finite) number
or a string.  A string carries its JavaScript numeric coercion Number(s) as
data (none = NaN), since the JS string-to-number grammar is not re-derived
here. -/
inductive PVal where
  | pnum (q : ℚ)
  | pstr (s : String) (numv : Option ℚ)
deriving DecidableEq, Repr

/-- JavaScript truthiness of a payload value (0 and "" are falsy; a finite
nonzero number and a nonempty string are truthy). -/
def PVal.truthy : PVal → Bool
  | .pnum q => q ≠ 0
  | .pstr s _ => s ≠ ""

/-- JavaScript Number() coercion of a payload value (none = NaN). -/
def PVal.toNum : PVal → Option ℚ
  | .pnum q => some q
  | .pstr _ v => v

/-- a || b for two possibly-absent payload values (absent and falsy both
fall through). -/
def jsOrP (a b : Option PVal) : Option PVal :=
  match a with
  | some v => if v.truthy then some v else b
  | none => b

/-- Number(a || b || 0): the numeric coercion of the first truthy of the two
values, or 0 when both are absent or falsy. -/
def coerceNum2 (a b : Option PVal) : Option ℚ :=
  match jsOrP a b with
  | some v => v.toNum
  | none => some 0

/-- a || b for an optional string against a string default ("" is falsy). -/
def jsOrS (a : Option String) (b : String) : String :=
  match a with
  | some s => if s = "" then b else s
  | none => b

/-- truthiness of an optional string (absent and "" are falsy). -/
def strTruthy : Option String → Bool
  | some s => s ≠ ""
  | none => false

/-- Whitespace trimming as applied by the mongoose trim schema option
(JS String.prototype.trim), modelled structurally on the character list. -/
def jsTrim (s : String) : String :=
  String.mk (((s.data.dropWhile Char.isWhitespace).reverse.dropWhile Char.isWhitespace).reverse)

/-- mongoose.Types.ObjectId.isValid: a 24-character hex string, or any
12-character string (interpreted as 12 raw bytes). -/
def isValidObjectId (s : String) : Bool :=
  (s.length = 24 && s.data.all (fun c => c.isDigit || ('a' ≤ c && c ≤ 'f') || ('A' ≤ c && c ≤ 'F')))
    || s.length = 12

/-! ### Data model -/

/-- A product document (src/models/Product.js), restricted to the fields the
order core reads or writes.  pid is the canonical string form of _id. -/
structure Product where
  pid : String
  name : String
  price : ℚ
  stock : ℚ
  track_stock : Bool
  dart_hash : Option Int
deriving DecidableEq, Repr

/-- An order document (src/models/Order_Standalone.js). oid abstracts the
ObjectId primary key. -/
structure OrderDoc where
  oid : Nat
  order_code : String
  name : String
  contact : Option String
  address : Option String
  status : String
  type_ : String
  payment : String
  ref : Option String
  totalPrice : ℚ
  discount : ℚ
  net_total : ℚ
  device_id : Option String
  fcm_token : Option String
  payment_proof_image_url : Option String
  payment_proof_public_id : Option String
deriving DecidableEq, Repr

/-- An order-item document (src/models/OrderItem.js).  quantity, unit_price
and total_price are stored JS numbers (none = NaN). -/
structure OrderItemDoc where
  order_id : Nat
  product_id : String
  quantity : Option ℚ
  unit_price : Option ℚ
  total_price : Option ℚ
  product_name : String
  variant_id : Option String
  variant_name : Option String
deriving DecidableEq, Repr

/-- The database state touched by the order core. -/
structure DB where
  products : List Product
  orders : List OrderDoc
  orderItems : List OrderItemDoc
deriving DecidableEq, Repr

/-- Order.findById. -/
def findOrder (db : DB) (oid : Nat) : Option OrderDoc :=
  db.orders.find? (fun o => o.oid = oid)

/-- The stock of the product with the given primary key, if it exists. -/
def stockOf (db : DB) (pid : String) : Option ℚ :=
  (db.products.find? (fun p => p.pid = pid)).map (fun p => p.stock)

/-- Order items of one order: OrderItem.find({ order_id: id }). -/
def itemsOf (db : DB) (oid : Nat) : List OrderItemDoc :=
  db.orderItems.filter (fun it => it.order_id = oid)

/-- The enum lists of the controller. -/
def validPayments : List String := ["Cash", "GCash"]

def validStatuses : List String :=
  ["Pending", "Processing", "Completed", "Cancelled", "Declined", "Delivered"]

def validTypes : List String := ["Online", "In-Store"]

/-! ### Numeric-id product resolution (createOrder, numeric branch) -/

/-- The hash2 loop of the last-resort block in createOrder:
hash2 = hash2 * 31 + char; hash2 = hash2 | 0. -/
def altHash2 (s : String) : Int :=
  (charCodes s).foldl (fun h c => toInt32 (h * 31 + (c : Int))) 0

/-- The hash3 loop of the last-resort block: hash3 += char (no truncation). -/
def altHash3 (s : String) : Int :=
  (charCodes s).foldl (fun h c => h + (c : Int)) 0

/-- Math.abs(hash1) === productId || Math.abs(hash2) === productId ||
Math.abs(hash3) === productId, for one candidate product id string.  hash1
is the canonical fingerprint loop. -/
def altHashMatches (s : String) (pid : ℚ) : Bool :=
  ((dartHashSigned s).natAbs : ℚ) = pid || ((altHash2 s).natAbs : ℚ) = pid
    || ((altHash3 s).natAbs : ℚ) = pid

/-- The numeric-identifier resolution flow of createOrder
(src/controllers/ordersController.js): dart_hash lookup, then name lookup,
then price lookup, then the 100-candidate alternate-hash scan, mirroring the
source's nesting.  (The debug read of ten products is effect-free and
omitted.) -/
def resolveNumeric (ps : List Product) (pid : ℚ) (productName : String)
    (unitPrice : Option ℚ) : Option Product :=
  match ps.find? (fun p => p.dart_hash.any (fun h => (h : ℚ) = pid)) with
  | some p => some p
  | none =>
    match (if productName ≠ "" && productName ≠ "Unknown Product" then
            ps.find? (fun p => p.name = productName)
          else none) with
    | some p => some p
    | none =>
      match (match unitPrice with
             | some v => if 0 < v then ps.find? (fun p => p.price = v) else none
             | none => none) with
      | some p => some p
      | none => (ps.take 100).find? (fun p => altHashMatches p.pid pid)

/-- Resolution strategy 1 as an isolated function (spec wording: lookup by
stored fingerprint field). -/
def stratByHash (ps : List Product) (pid : ℚ) : Option Product :=
  ps.find? (fun p => p.dart_hash.any (fun h => (h : ℚ) = pid))

/-- Resolution strategy 2 (spec wording: exact name match when a usable name
hint is present). -/
def stratByName (ps : List Product) (productName : String) : Option Product :=
  if productName ≠ "" && productName ≠ "Unknown Product" then
    ps.find? (fun p => p.name = productName)
  else none

/-- Resolution strategy 3 (spec wording: exact price match when the price
hint is finite and positive; first match). -/
def stratByPrice (ps : List Product) (unitPrice : Option ℚ) : Option Product :=
  match unitPrice with
  | some v => if 0 < v then ps.find? (fun p => p.price = v) else none
  | none => none

/-- Resolution strategy 4 (spec wording: recompute alternate hash variants
over candidate products and compare with the identifier). -/
def stratByAltHash (ps : List Product) (pid : ℚ) : Option Product :=
  (ps.take 100).find? (fun p => altHashMatches p.pid pid)

/-! ### createOrder -/

/-- One entry of the items array of the create-order payload, with the alias
fields the controller reads. -/
structure ItemReq where
  product_id : Option PVal := none
  productId : Option PVal := none
  quantity : Option PVal := none
  qty : Option PVal := none
  price : Option PVal := none
  unit_price : Option PVal := none
  total : Option PVal := none
  total_price : Option PVal := none
  product_name : Option String := none
  name : Option String := none
  variant_id : Option String := none
  variantId : Option String := none
  variant_name : Option String := none
  variantName : Option String := none
deriving DecidableEq, Repr

/-- a || b || null over optional strings. -/
def jsOrSO (a b : Option String) : Option String :=
  if strTruthy a then a else if strTruthy b then b else none

/-- a || null over an optional string. -/
def nullify (a : Option String) : Option String :=
  if strTruthy a then a else none

/-- NaN-propagating product of two JS numbers. -/
def qMulOpt (a b : Option ℚ) : Option ℚ :=
  match a, b with
  | some x, some y => some (x * y)
  | _, _ => none

/-- quantity <= 0 in JS (false when quantity is NaN). -/
def qLE0 : Option ℚ → Bool
  | some q => q ≤ 0
  | none => false

/-- The tail of the item loop after product resolution: total_price
recomputation (only when the coerced payload total is not finite), the
product-name default, variant validation, and assembly of the document. -/
def finishItem (orderOid : Nat) (validPid : String) (quantity unitPrice : Option ℚ)
    (productName : String) (itemTotal : Option ℚ) (it : ItemReq) : OrderItemDoc :=
  let itemTotalPrice :=
    match itemTotal with
    | none => qMulOpt unitPrice quantity
    | some t => some t
  let productName2 := if productName = "" then "Unknown Product" else productName
  let variantId := jsOrSO it.variant_id it.variantId
  let validVariantId :=
    match variantId with
    | some v => if isValidObjectId v then some v else none
    | none => none
  { order_id := orderOid, product_id := validPid, quantity := quantity,
    unit_price := unitPrice, total_price := itemTotalPrice,
    product_name := productName2, variant_id := validVariantId,
    variant_name := jsOrSO it.variant_name it.variantName }

/-- One iteration of the item loop of createOrder: none means the entry is
skipped (continue in the source). -/
def processItem (ps : List Product) (orderOid : Nat) (it : ItemReq) : Option OrderItemDoc :=
  let productId := jsOrP it.product_id it.productId
  let quantity := coerceNum2 it.quantity it.qty
  match productId with
  | none => none
  | some pv =>
    if qLE0 quantity then none
    else
      let unitPrice := coerceNum2 it.price it.unit_price
      let productName := jsOrS it.product_name (jsOrS it.name "")
      let itemTotalPrice := coerceNum2 it.total it.total_price
      match pv with
      | .pnum pid =>
        match resolveNumeric ps pid productName unitPrice with
        | some p =>
          let productName2 := if productName = "" then p.name else productName
          let unitPrice2 := match unitPrice with
            | none => some p.price
            | some v => some v
          some (finishItem orderOid p.pid quantity unitPrice2 productName2 itemTotalPrice it)
        | none => none
      | .pstr s _ =>
        if isValidObjectId s then
          let fetched :=
            if productName = "" || unitPrice = none then ps.find? (fun p => p.pid = s)
            else none
          let productName2 := match fetched with
            | some p => if productName = "" then p.name else productName
            | none => productName
          let unitPrice2 := match fetched with
            | some p => if unitPrice = none then some p.price else unitPrice
            | none => unitPrice
          some (finishItem orderOid s quantity unitPrice2 productName2 itemTotalPrice it)
        else none

/-- The create-order request body. -/
structure CreateReq where
  name : Option PVal := none
  contact : Option String := none
  address : Option String := none
  payment : Option String := none
  ref : Option String := none
  totalPrice : Option PVal := none
  discount : Option ℚ := none
  net_total : Option ℚ := none
  status : Option String := none
  type_ : Option String := none
  device_id : Option PVal := none
  fcm_token : Option String := none
  items : List ItemReq := []
  payment_proof_image_url : Option String := none
  payment_proof_public_id : Option String := none
deriving Repr

/-- Response of createOrder. -/
inductive CResp where
  | created (o : OrderDoc) (inserted : Nat)
  | badRequest (msg : String)
  | serverError
deriving DecidableEq, Repr

/-- !name || typeof name !== 'string': the guard passes exactly when the
value is a truthy string, which it then returns. -/
def requiredString : Option PVal → Option String
  | some (.pstr s _) => if s = "" then none else some s
  | _ => none

/-- !totalPrice || typeof totalPrice !== 'number': passes exactly for a
truthy number (note: a negative number passes this guard). -/
def requiredNumber : Option PVal → Option ℚ
  | some (.pnum q) => if q = 0 then none else some q
  | _ => none

/-- if (v && !valid.includes(v)) — the enum rejection condition. -/
def enumBad (v : Option String) (valid : List String) : Bool :=
  strTruthy v && !(valid.contains (v.getD ""))

/-- 'ORD' + Date.now().toString().slice(-6).  now is the epoch-millisecond
timestamp. -/
def genOrderCode (now : Nat) : String :=
  "ORD" ++ String.mk ((Nat.repr now).data.drop ((Nat.repr now).data.length - 6))

/-- mongoose validation run by order.save() against the Order_Standalone
schema: required name (trimmed) and order_code, min-0 numeric fields, enum
membership, and the unique index on order_code. -/
def orderSaveOk (db : DB) (o : OrderDoc) : Bool :=
  jsTrim o.name ≠ "" && o.order_code ≠ "" && 0 ≤ o.totalPrice && 0 ≤ o.discount
    && 0 ≤ o.net_total && validStatuses.contains o.status
    && validTypes.contains o.type_ && validPayments.contains o.payment
    && db.orders.all (fun o2 => o2.order_code ≠ o.order_code)

/-- mongoose validation of one document in OrderItem.insertMany: required
product_id and product_name, quantity min 1, unit_price and total_price
min 0.  (insertMany does not run the save middleware that recomputes
total_price.) -/
def itemValid (d : OrderItemDoc) : Bool :=
  (match d.quantity with | some q => decide (1 ≤ q) | none => false)
    && (match d.unit_price with | some q => decide (0 ≤ q) | none => false)
    && (match d.total_price with | some q => decide (0 ≤ q) | none => false)
    && jsTrim d.product_name ≠ "" && d.product_id ≠ ""

/-- The orderData document assembled by createOrder, given the values nm,
tp, dev that passed the three required-field guards. -/
def buildOrder (req : CreateReq) (now : Nat) (newOid : Nat)
    (nm : String) (tp : ℚ) (dev : String) : OrderDoc :=
  { oid := newOid
    order_code := genOrderCode now
    name := nm
    contact := nullify req.contact
    address := nullify req.address
    payment := jsOrS req.payment "Cash"
    ref := nullify req.ref
    totalPrice := tp
    discount := match req.discount with | some d => if d = 0 then 0 else d | none => 0
    net_total := match req.net_total with | some n => if n = 0 then tp else n | none => tp
    status := jsOrS req.status "Pending"
    type_ := jsOrS req.type_ "Online"
    device_id := some dev
    fcm_token := nullify req.fcm_token
    payment_proof_image_url := nullify req.payment_proof_image_url
    payment_proof_public_id := nullify req.payment_proof_public_id }

/-- createOrder of src/controllers/ordersController.js.  now models
Date.now(); newOid models the ObjectId minted for the new order. -/
def createOrder (db : DB) (req : CreateReq) (now : Nat) (newOid : Nat) : DB × CResp :=
  match requiredString req.name with
  | none => (db, .badRequest "Name is required")
  | some nm =>
  match requiredNumber req.totalPrice with
  | none => (db, .badRequest "Total price is required")
  | some tp =>
  match requiredString req.device_id with
  | none => (db, .badRequest "Device ID is required")
  | some dev =>
  if enumBad req.payment validPayments then
    (db, .badRequest "Invalid payment method. Must be Cash or GCash")
  else if enumBad req.status validStatuses then
    (db, .badRequest "Invalid status")
  else if enumBad req.type_ validTypes then
    (db, .badRequest "Invalid type. Must be Online or In-Store")
  else
    let o : OrderDoc := buildOrder req now newOid nm tp dev
    if orderSaveOk db o then
      let db1 : DB := { db with orders := db.orders ++ [o] }
      let docs := req.items.filterMap (processItem db.products newOid)
      if docs.isEmpty then (db1, .created o 0)
      else if docs.all itemValid then
        ({ db1 with orderItems := db1.orderItems ++ docs }, .created o docs.length)
      else (db1, .serverError)
    else (db, .serverError)

/-! ### updateOrderPayment -/

/-- The update-order request body. -/
structure UpdateReq where
  payment : Option String := none
  ref : Option String := none
  status : Option String := none
  device_id : Option String := none
  fcm_token : Option String := none
  payment_proof_image_url : Option String := none
  payment_proof_public_id : Option String := none
deriving DecidableEq, Repr

/-- Response of updateOrderPayment.  diag carries the items_processed /
stock_updates diagnostics computed when the guarded decrement ran. -/
inductive UResp where
  | ok (o : OrderDoc) (diag : Option (Nat × Nat))
  | badRequest (msg : String)
  | notFound
  | forbidden
  | serverError
deriving DecidableEq, Repr

/-- The updateFields object applied to an order: each field present in the
body (typeof x !== 'undefined') overwrites the stored one. -/
def applyFields (o : OrderDoc) (req : UpdateReq) : OrderDoc :=
  { o with
    payment := req.payment.getD o.payment
    ref := match req.ref with | some r => some r | none => o.ref
    status := req.status.getD o.status
    fcm_token := match req.fcm_token with | some t => some t | none => o.fcm_token
    payment_proof_image_url :=
      match req.payment_proof_image_url with | some v => some v | none => o.payment_proof_image_url
    payment_proof_public_id :=
      match req.payment_proof_public_id with | some v => some v | none => o.payment_proof_public_id }

/-- Object.keys(updateFields).length === 0 (device_id is never an update
field). -/
def hasUpdateFields (req : UpdateReq) : Bool :=
  req.payment.isSome || req.ref.isSome || req.status.isSome || req.fcm_token.isSome
    || req.payment_proof_image_url.isSome || req.payment_proof_public_id.isSome

/-- Number(item.quantity) || 0. -/
def qtyNum (it : OrderItemDoc) : ℚ :=
  match it.quantity with | some q => q | none => 0

/-- The stock-decrement loop: for each item with positive quantity,
Product.findByIdAndUpdate(item.product_id, dollar-inc stock by -qty); an
update aimed at a missing product id is a no-op. -/
def decProducts (ps : List Product) (items : List OrderItemDoc) : List Product :=
  items.foldl (fun acc it =>
    let qty := qtyNum it
    if qty ≤ 0 then acc
    else acc.map (fun p => if p.pid = it.product_id then { p with stock := p.stock - qty } else p)) ps

/-- stockUpdates: incremented once per item whose quantity is positive. -/
def stockUpdatesCount (items : List OrderItemDoc) : Nat :=
  (items.filter (fun it => 0 < qtyNum it)).length

/-- The body of session.withTransaction in updateOrderPayment: re-read the
order, re-validate ownership (skipped when the stored device_id is absent or
empty), write the update fields, and, when the pre-update status was not
Processing, run the stock-decrement loop and record diagnostics.  An error
result models a throw inside the transaction. -/
def processingTransaction (db : DB) (oid : Nat) (req : UpdateReq) :
    Except Unit (DB × OrderDoc × Option (Nat × Nat)) :=
  match findOrder db oid with
  | none => .error ()
  | some locked =>
    if strTruthy req.device_id && strTruthy locked.device_id
        && locked.device_id ≠ req.device_id then
      .error ()
    else
      let previousStatus := locked.status
      let updated := applyFields locked req
      let db1 : DB :=
        { db with orders := db.orders.map (fun x => if x.oid = oid then applyFields x req else x) }
      if previousStatus ≠ "Processing" then
        let orderItems := itemsOf db oid
        .ok ({ db1 with products := decProducts db1.products orderItems },
          updated, some (orderItems.length, stockUpdatesCount orderItems))
      else
        .ok (db1, updated, none)

/-- The tail of updateOrderPayment after the enum and ownership checks: the
no-fields guard, then either the transaction-guarded Processing path (abort
restores the original state and answers with a generic server error) or the
plain field write. -/
def updateAfterChecks (db : DB) (oid : Nat) (req : UpdateReq) : DB × UResp :=
  if !hasUpdateFields req then (db, .badRequest "No update fields")
  else if req.status = some "Processing" then
    match processingTransaction db oid req with
    | .ok (db2, updated, diag) => (db2, .ok updated diag)
    | .error _ => (db, .serverError)
  else
    match findOrder db oid with
    | none => (db, .notFound)
    | some o =>
      ({ db with orders := db.orders.map (fun x => if x.oid = oid then applyFields x req else x) },
        .ok (applyFields o req) none)

/-- updateOrderPayment of src/controllers/ordersController.js.  oid models a
well-formed ObjectId path parameter (the id-format guards are identity on
such ids).  The post-response FCM send does not touch the database or the
response and is omitted. -/
def updateOrderPayment (db : DB) (oid : Nat) (req : UpdateReq) : DB × UResp :=
  if enumBad req.payment validPayments then
    (db, .badRequest "Invalid payment method. Must be Cash or GCash")
  else if enumBad req.status validStatuses then
    (db, .badRequest "Invalid status")
  else if strTruthy req.device_id then
    match findOrder db oid with
    | none => (db, .notFound)
    | some ex =>
      if ex.device_id ≠ req.device_id then (db, .forbidden)
      else updateAfterChecks db oid req
  else updateAfterChecks db oid req

/-- Total stock decrement a list of order items causes for one product id:
each item with positive quantity aimed at that product contributes its
quantity, all other items contribute nothing. -/
def totalDec (items : List OrderItemDoc) (pid : String) : ℚ :=
  (items.map (fun it =>
    if qtyNum it ≤ 0 then 0 else if it.product_id = pid then qtyNum it else 0)).sum

/-! ### Concrete fixtures -/

/-- A 24-hex-character primary key, the canonical ObjectId string shape. -/
def exPid : String := "507f1f77bcf86cd799439011"

def exProduct : Product :=
  { pid := exPid, name := "Milk", price := 5, stock := 10,
    track_stock := false, dart_hash := some 1234 }

def exDB : DB := { products := [exProduct], orders := [], orderItems := [] }

/-- Is a create-order response the client-error (validation) shape? -/
def isValidationFailure : CResp → Bool
  | .badRequest _ => true
  | _ => false

def c5req : CreateReq :=
  { name := some (.pstr "Alice" none), totalPrice := some (.pnum 100),
    discount := some 10, device_id := some (.pstr "dev1" none),
    items := [ { product_id := some (.pstr exPid none),
                 quantity := some (.pnum 2), price := some (.pnum 45) } ] }

def c7req : CreateReq :=
  { name := some (.pstr "Carol" none), totalPrice := some (.pnum (-5)),
    device_id := some (.pstr "dev1" none) }

def c8req : CreateReq :=
  { name := some (.pstr "Bob" none), totalPrice := some (.pnum 10),
    device_id := some (.pstr "dev1" none),
    items := [ { product_id := some (.pstr exPid none),
                 quantity := some (.pnum 2) } ] }

def c6order : OrderDoc :=
  { oid := 1, order_code := "ORD000001", name := "A", contact := none,
    address := none, status := "Pending", type_ := "Online", payment := "Cash",
    ref := none, totalPrice := 10, discount := 0, net_total := 10,
    device_id := none, fcm_token := none,
    payment_proof_image_url := none, payment_proof_public_id := none }

def c6db : DB := { products := [], orders := [c6order], orderItems := [] }

def c6req : UpdateReq := { status := some "Completed", device_id := some "x" }

/-- The single cart line of c5req, as a standalone fixture. -/
def c8witem : ItemReq :=
  { product_id := some (.pstr exPid none), quantity := some (.pnum 2),
    price := some (.pnum 45) }

def wOrder : OrderDoc :=
  { oid := 1, order_code := "ORD000001", name := "A", contact := none,
    address := none, status := "Pending", type_ := "Online", payment := "Cash",
    ref := none, totalPrice := 10, discount := 0, net_total := 10,
    device_id := none, fcm_token := none,
    payment_proof_image_url := none, payment_proof_public_id := none }

def wItem : OrderItemDoc :=
  { order_id := 1, product_id := exPid, quantity := some 2, unit_price := some 5,
    total_price := some 10, product_name := "Milk", variant_id := none, variant_name := none }

def wDB : DB := { products := [exProduct], orders := [wOrder], orderItems := [wItem] }

def wReq : UpdateReq := { status := some "Processing" }

def w9prod : Product :=
  { pid := "p9", name := "Eggs", price := 3, stock := 1,
    track_stock := false, dart_hash := none }

def w9order : OrderDoc :=
  { oid := 2, order_code := "ORD000002", name := "B", contact := none,
    address := none, status := "Pending", type_ := "Online", payment := "Cash",
    ref := none, totalPrice := 15, discount := 0, net_total := 15,
    device_id := none, fcm_token := none,
    payment_proof_image_url := none, payment_proof_public_id := none }

def w9item5 : OrderItemDoc :=
  { order_id := 2, product_id := "p9", quantity := some 5, unit_price := some 3,
    total_price := some 15, product_name := "Eggs", variant_id := none, variant_name := none }

def w9item0 : OrderItemDoc :=
  { order_id := 2, product_id := "p9", quantity := some 0, unit_price := some 3,
    total_price := some 0, product_name := "Eggs", variant_id := none, variant_name := none }

def w9db : DB :=
  { products := [w9prod], orders := [w9order], orderItems := [w9item5, w9item0] }

def c4witem : ItemReq :=
  { product_id := some (.pnum 999999999), quantity := some (.pnum 1) }

def c4wreq : CreateReq :=
  { name := some (.pstr "A" none), totalPrice := some (.pnum 10),
    device_id := some (.pstr "d" none), items := [c4witem] }

/-! ### C10: order-code construction -/

/-- Most-significant-first decimal digit characters of a natural number, as
printed by Nat.repr. -/
def msbDigits (n : Nat) : List Char :=
  if _h : n < 10 then [Nat.digitChar n]
  else msbDigits (n / 10) ++ [Nat.digitChar (n % 10)]
termination_by n
decreasing_by
  exact Nat.div_lt_self (by omega) (by norm_num)

/-- The last k decimal digits of a number, zero-padded to width k
(most-significant first): the claim's "last six decimal digits". -/
def lastDigits : Nat → Nat → List Char
  | 0, _ => []
  | k + 1, n => lastDigits k (n / 10) ++ [Nat.digitChar (n % 10)]

/-! ## Theorems -/

theorem toInt32_lb (x : Int) : -2147483648 ≤ toInt32 x := by
  have h := Int.emod_nonneg (x + 2147483648) (by norm_num : (4294967296 : Int) ≠ 0)
  unfold toInt32
  omega

theorem toInt32_ub (x : Int) : toInt32 x < 2147483648 := by
  have h := Int.emod_lt_of_pos (x + 2147483648) (by norm_num : (0 : Int) < 4294967296)
  unfold toInt32
  omega

/-- toInt32 only changes its argument by a multiple of 2^32. -/
theorem toInt32_sub_dvd (x : Int) : (4294967296 : Int) ∣ (x - toInt32 x) := by
  unfold toInt32
  have hdef := Int.emod_def (x + 2147483648) 4294967296
  exact ⟨(x + 2147483648) / 4294967296, by linarith⟩

/-- toInt32 is invariant under shifting by multiples of 2^32. -/
theorem toInt32_add_mul (x k : Int) : toInt32 (x + 4294967296 * k) = toInt32 x := by
  unfold toInt32
  congr 1
  have : x + 4294967296 * k + 2147483648 = (x + 2147483648) + 4294967296 * k := by ring
  rw [this, Int.add_mul_emod_self_left]

/-- The source's double-truncation step equals the specification's
single-truncation step, for every accumulator value. -/
theorem dartHashStep_eq_specHashStep (h : Int) (c : Nat) :
    dartHashStep h c = specHashStep h c := by
  unfold dartHashStep specHashStep
  obtain ⟨k, hk⟩ := toInt32_sub_dvd (h * 32)
  have : toInt32 (h * 32) - h + (c : Int)
       = (h * 32 - h + (c : Int)) + 4294967296 * (-k) := by linarith
  rw [this, toInt32_add_mul]

/-! ### Generic list lemmas used by the state-transition proofs -/

/-- find? commutes with a map that preserves the search predicate. -/
theorem find?_map_of_pres {α : Type} (g : α → α) (q : α → Bool)
    (hg : ∀ a, q (g a) = q a) (l : List α) :
    (l.map g).find? q = (l.find? q).map g := by
  induction l with
  | nil => rfl
  | cons a l ih =>
    simp only [List.map_cons, List.find?]
    rw [hg a]
    cases hq : q a <;> simp [ih]

/-- Effect of the stock-decrement loop on one product slot: the product
list keeps its shape, and the product with the given id (when present)
loses exactly the total decrement for that id. -/
theorem decProducts_find? (items : List OrderItemDoc) (ps : List Product) (pid : String) :
    (decProducts ps items).find? (fun p => p.pid = pid)
      = (ps.find? (fun p => p.pid = pid)).map
          (fun p => { p with stock := p.stock - totalDec items pid }) := by
  induction items generalizing ps with
  | nil =>
    cases hf : ps.find? (fun p => p.pid = pid) <;>
      simp [decProducts, totalDec, hf]
  | cons it its ih =>
    by_cases hq : qtyNum it ≤ 0
    · have hstep : decProducts ps (it :: its) = decProducts ps its := by
        simp [decProducts, hq]
      rw [hstep, ih]
      cases hf : ps.find? (fun p => p.pid = pid) <;>
        simp [totalDec, hq, hf]
    · have hstep : decProducts ps (it :: its)
          = decProducts (ps.map (fun p =>
              if p.pid = it.product_id then { p with stock := p.stock - qtyNum it } else p)) its := by
        simp [decProducts, hq]
      rw [hstep, ih]
      rw [find?_map_of_pres _ _ (fun p => by by_cases h : p.pid = it.product_id <;> simp [h])]
      cases hf : ps.find? (fun p => p.pid = pid) with
      | none => simp
      | some p =>
        have hp : p.pid = pid := by
          have := List.find?_some hf
          simpa using this
        by_cases hmatch : p.pid = it.product_id
        · have hid : it.product_id = pid := by rw [← hmatch, hp]
          simp only [Option.map_some', if_pos hmatch]
          have hsum : totalDec (it :: its) pid = qtyNum it + totalDec its pid := by
            simp [totalDec, hq, hid]
          rw [hsum]
          congr 1
          exact (sub_sub p.stock (qtyNum it) (totalDec its pid)).symm ▸ rfl
        · have hid : ¬ it.product_id = pid := by rw [← hp]; exact fun h => hmatch h.symm
          simp only [Option.map_some', if_neg hmatch]
          have hsum : totalDec (it :: its) pid = totalDec its pid := by
            simp [totalDec, hq, hid]
          rw [hsum]

/-! ### C3: fingerprint algorithm -/

/-- The fold with either step function stays inside the signed 32-bit
range once the accumulator is in range. -/
theorem specHash_fold_range (cs : List Nat) :
    ∀ h : Int, -2147483648 ≤ h → h < 2147483648 →
      -2147483648 ≤ cs.foldl specHashStep h ∧ cs.foldl specHashStep h < 2147483648 := by
  induction cs with
  | nil => intro h h1 h2; exact ⟨h1, h2⟩
  | cons c cs ih =>
    intro h _ _
    simpa using ih (specHashStep h c) (toInt32_lb _) (toInt32_ub _)

/-- C3.  Fingerprint algorithm and determinism: the stored fingerprint of a
primary-key string s is abs(h) where h is the fold of
h = (h << 5) - h + c over the character codes, truncated to a 32-bit
signed integer with two's-complement wrap at each step.  The embedding is a
pure function of s, and the result is a 32-bit magnitude (at most 2^31). -/
theorem C3_fingerprint_algorithm (s : String) :
    dartHash s = ((specHashSigned s).natAbs : Int)
      ∧ dartHashSigned s = specHashSigned s
      ∧ -2147483648 ≤ specHashSigned s ∧ specHashSigned s < 2147483648
      ∧ dartHash s ≤ 2147483648 := by
  have hstep : dartHashStep = specHashStep :=
    funext fun h => funext fun c => dartHashStep_eq_specHashStep h c
  have heq : dartHashSigned s = specHashSigned s := by
    unfold dartHashSigned specHashSigned
    rw [hstep]
  have hrange := specHash_fold_range (charCodes s) 0 (by norm_num) (by norm_num)
  refine ⟨?_, heq, hrange.1, hrange.2, ?_⟩
  · unfold dartHash
    rw [heq]
  · unfold dartHash
    rw [heq]
    have h1 := hrange.1
    have h2 := hrange.2
    unfold specHashSigned at h1 h2 ⊢
    omega

theorem enumBad_processing : enumBad (some "Processing") validStatuses = false := by decide

theorem strTruthy_none : strTruthy none = false := rfl

/-- With a Processing status, a passing payment enum and no device_id, the
call reduces to the transaction runner. -/
theorem upd_unfold_processing (db : DB) (oid : Nat) (req : UpdateReq)
    (hstat : req.status = some "Processing") (hdev : req.device_id = none)
    (hpay : enumBad req.payment validPayments = false) :
    updateOrderPayment db oid req =
      (match processingTransaction db oid req with
        | .ok (db2, updated, diag) => (db2, .ok updated diag)
        | .error _ => (db, UResp.serverError)) := by
  have hfields : hasUpdateFields req = true := by
    simp [hasUpdateFields, hstat]
  unfold updateOrderPayment updateAfterChecks
  rw [hpay, hstat, hdev]
  simp [enumBad_processing, strTruthy_none, hfields, hstat]

/-- applyFields never changes the primary key. -/
theorem applyFields_oid (o : OrderDoc) (req : UpdateReq) : (applyFields o req).oid = o.oid := rfl

/-- Looking up the updated order after the field write returns the order
with the fields applied. -/
theorem findOrder_map_update (l : List OrderDoc) (oid : Nat) (req : UpdateReq) :
    (l.map (fun x => if x.oid = oid then applyFields x req else x)).find? (fun o => o.oid = oid)
      = (l.find? (fun o => o.oid = oid)).map (fun x => applyFields x req) := by
  rw [find?_map_of_pres _ _ (fun a => by by_cases h : a.oid = oid <;> simp [h, applyFields_oid])]
  cases hf : l.find? (fun o => o.oid = oid) with
  | none => rfl
  | some o =>
    have ho : o.oid = oid := by simpa using List.find?_some hf
    simp [ho]

/-- The guarded path when the order exists and its pre-update status is not
Processing: fields are written, the decrement loop runs, diagnostics are
attached. -/
theorem upd_processing_decrement (db : DB) (oid : Nat) (req : UpdateReq) (o : OrderDoc)
    (hfind : findOrder db oid = some o)
    (hstat : req.status = some "Processing") (hdev : req.device_id = none)
    (hpay : enumBad req.payment validPayments = false)
    (hprev : o.status ≠ "Processing") :
    updateOrderPayment db oid req =
      ({ orders := db.orders.map (fun x => if x.oid = oid then applyFields x req else x),
         products := decProducts db.products (itemsOf db oid),
         orderItems := db.orderItems },
       UResp.ok (applyFields o req)
         (some ((itemsOf db oid).length, stockUpdatesCount (itemsOf db oid)))) := by
  rw [upd_unfold_processing db oid req hstat hdev hpay]
  unfold processingTransaction
  rw [hfind, hdev]
  simp only [strTruthy_none, Bool.false_and, Bool.false_eq_true, if_false]
  rw [if_pos hprev]

/-- The guarded path when the order is already in Processing: a plain field
write, no stock side effect, no diagnostics. -/
theorem upd_processing_plain (db : DB) (oid : Nat) (req : UpdateReq) (o : OrderDoc)
    (hfind : findOrder db oid = some o)
    (hstat : req.status = some "Processing") (hdev : req.device_id = none)
    (hpay : enumBad req.payment validPayments = false)
    (hprev : o.status = "Processing") :
    updateOrderPayment db oid req =
      ({ db with orders := db.orders.map (fun x => if x.oid = oid then applyFields x req else x) },
       UResp.ok (applyFields o req) none) := by
  rw [upd_unfold_processing db oid req hstat hdev hpay]
  unfold processingTransaction
  rw [hfind, hdev]
  simp only [strTruthy_none, Bool.false_and, Bool.false_eq_true, if_false]
  rw [if_neg (by simp [hprev])]

/-- The guarded path when the order does not exist (and no device_id was
supplied, so the pre-check could not answer 404 first): the transaction
throws, the state is unchanged, the caller gets a generic server error. -/
theorem upd_processing_missing (db : DB) (oid : Nat) (req : UpdateReq)
    (hfind : findOrder db oid = none)
    (hstat : req.status = some "Processing") (hdev : req.device_id = none)
    (hpay : enumBad req.payment validPayments = false) :
    updateOrderPayment db oid req = (db, UResp.serverError) := by
  rw [upd_unfold_processing db oid req hstat hdev hpay]
  unfold processingTransaction
  rw [hfind]

/-- stockOf after the decrement loop, stated against the original state. -/
theorem stockOf_decProducts (db : DB) (items : List OrderItemDoc) (pid : String) :
    (List.find? (fun p => p.pid = pid) (decProducts db.products items)).map (fun p => p.stock)
      = (stockOf db pid).map (fun s => s - totalDec items pid) := by
  rw [decProducts_find?]
  unfold stockOf
  cases db.products.find? (fun p => p.pid = pid) <;> rfl

/-- C1.  Idempotent Processing: re-entering Processing when the order is
already in Processing performs no stock side effect; and from Pending, two
successive Processing updates decrement each referenced product's stock by
the item quantities exactly once in total (the second call changes no
stock). -/
theorem C1_idempotent_processing (db : DB) (oid : Nat) (req : UpdateReq) (o : OrderDoc)
    (hfind : findOrder db oid = some o)
    (hstat : req.status = some "Processing") (hdev : req.device_id = none)
    (hpay : enumBad req.payment validPayments = false) :
    (o.status = "Processing" → ((updateOrderPayment db oid req).1).products = db.products)
    ∧ (o.status = "Pending" →
        (∀ pid : String,
          stockOf (updateOrderPayment (updateOrderPayment db oid req).1 oid req).1 pid
            = (stockOf db pid).map (fun s => s - totalDec (itemsOf db oid) pid))
        ∧ ((updateOrderPayment (updateOrderPayment db oid req).1 oid req).1).products
            = ((updateOrderPayment db oid req).1).products) := by
  constructor
  · intro hproc
    rw [upd_processing_plain db oid req o hfind hstat hdev hpay hproc]
  · intro hpend
    have hprev : o.status ≠ "Processing" := by rw [hpend]; decide
    have h1 := upd_processing_decrement db oid req o hfind hstat hdev hpay hprev
    set db1 := (updateOrderPayment db oid req).1 with hdb1
    have hdb1eq : db1 =
        { orders := db.orders.map (fun x => if x.oid = oid then applyFields x req else x),
          products := decProducts db.products (itemsOf db oid),
          orderItems := db.orderItems } := by
      rw [hdb1, h1]
    have hfind1 : findOrder db1 oid = some (applyFields o req) := by
      rw [hdb1eq]
      unfold findOrder
      show (db.orders.map fun x => if x.oid = oid then applyFields x req else x).find?
            (fun o2 => o2.oid = oid) = _
      rw [findOrder_map_update]
      unfold findOrder at hfind
      rw [hfind]
      rfl
    have hproc1 : (applyFields o req).status = "Processing" := by
      unfold applyFields
      rw [hstat]
      rfl
    have h2 := upd_processing_plain db1 oid req (applyFields o req) hfind1 hstat hdev hpay hproc1
    constructor
    · intro pid
      rw [h2]
      show stockOf db1 pid = _
      rw [hdb1eq]
      unfold stockOf
      exact stockOf_decProducts db (itemsOf db oid) pid
    · rw [h2]

/-- C9 (implicit).  The guarded decrement ignores track_stock (the theorem
holds for every database state whatever the products' track_stock flags,
and the resulting stock is unconstrained below): each item's referenced
product loses the item quantity; items whose quantity coerces to a
non-positive number (or NaN) contribute nothing; items_processed is the
full item count and stock_updates counts exactly the positive-quantity
items. -/
theorem C9_decrement_ignores_track_stock (db : DB) (oid : Nat) (req : UpdateReq) (o : OrderDoc)
    (hfind : findOrder db oid = some o)
    (hstat : req.status = some "Processing") (hdev : req.device_id = none)
    (hpay : enumBad req.payment validPayments = false)
    (hprev : o.status ≠ "Processing") :
    (updateOrderPayment db oid req).2
        = UResp.ok (applyFields o req)
            (some ((itemsOf db oid).length,
              ((itemsOf db oid).filter (fun it => 0 < qtyNum it)).length))
    ∧ ∀ pid : String,
        stockOf (updateOrderPayment db oid req).1 pid
          = (stockOf db pid).map (fun s => s - totalDec (itemsOf db oid) pid) := by
  have h1 := upd_processing_decrement db oid req o hfind hstat hdev hpay hprev
  constructor
  · rw [h1]
    rfl
  · intro pid
    rw [h1]
    exact stockOf_decProducts db (itemsOf db oid) pid

/-- The tail of the update call only answers with the generic server error
when the transaction aborted, in which case the state is untouched. -/
theorem updateAfterChecks_serverError_unchanged (db : DB) (oid : Nat) (req : UpdateReq)
    (h : (updateAfterChecks db oid req).2 = UResp.serverError) :
    (updateAfterChecks db oid req).1 = db := by
  unfold updateAfterChecks at h ⊢
  by_cases hf : hasUpdateFields req
  · rw [if_neg (by simp [hf])] at h ⊢
    by_cases hs : req.status = some "Processing"
    · rw [if_pos hs] at h ⊢
      cases htx : processingTransaction db oid req with
      | ok v =>
        rw [htx] at h
        obtain ⟨db2, upd, diag⟩ := v
        simp at h
      | error e => rfl
    · rw [if_neg hs] at h ⊢
      cases hfo : findOrder db oid with
      | none => rfl
      | some o => simp [hfo] at h
  · rw [if_pos (by simp [hf])] at h
    simp at h

/-- Any server-error answer of updateOrderPayment leaves the state exactly
as it was. -/
theorem updateOrderPayment_serverError_unchanged (db : DB) (oid : Nat) (req : UpdateReq)
    (h : (updateOrderPayment db oid req).2 = UResp.serverError) :
    (updateOrderPayment db oid req).1 = db := by
  unfold updateOrderPayment at h ⊢
  by_cases h1 : enumBad req.payment validPayments
  · rw [if_pos h1] at h
    simp at h
  · rw [if_neg h1] at h ⊢
    by_cases h2 : enumBad req.status validStatuses
    · rw [if_pos h2] at h
      simp at h
    · rw [if_neg h2] at h ⊢
      by_cases h3 : strTruthy req.device_id
      · rw [if_pos h3] at h ⊢
        cases hfo : findOrder db oid with
        | none => rfl
        | some ex =>
          simp only [hfo] at h
          show (if ex.device_id ≠ req.device_id then (db, UResp.forbidden)
                else updateAfterChecks db oid req).1 = db
          by_cases h4 : ex.device_id ≠ req.device_id
          · rw [if_pos h4]
          · rw [if_neg h4] at h ⊢
            exact updateAfterChecks_serverError_unchanged db oid req h
      · rw [if_neg h3] at h ⊢
        exact updateAfterChecks_serverError_unchanged db oid req h

/-- C2.  Guarded-transition atomicity: whenever the call answers with the
generic server error, the database is exactly as before (no partial stock
decrement, order fields unchanged); in particular a Processing update whose
transaction finds no order aborts with the generic error and no mutation. -/
theorem C2_transaction_atomicity :
    (∀ (db : DB) (oid : Nat) (req : UpdateReq),
      (updateOrderPayment db oid req).2 = UResp.serverError →
        (updateOrderPayment db oid req).1 = db)
    ∧ (∀ (db : DB) (oid : Nat) (req : UpdateReq),
        req.status = some "Processing" → req.device_id = none →
        enumBad req.payment validPayments = false →
        findOrder db oid = none →
        updateOrderPayment db oid req = (db, UResp.serverError)) := by
  constructor
  · intro db oid req h
    exact updateOrderPayment_serverError_unchanged db oid req h
  · intro db oid req hstat hdev hpay hfind
    exact upd_processing_missing db oid req hfind hstat hdev hpay

/-! ### C4: resolver fallback chain -/

/-- The resolution flow equals the ordered strategy chain. -/
theorem resolveNumeric_eq_chain (ps : List Product) (pid : ℚ) (n : String) (u : Option ℚ) :
    resolveNumeric ps pid n u =
      Option.orElse (stratByHash ps pid) (fun _ =>
        Option.orElse (stratByName ps n) (fun _ =>
          Option.orElse (stratByPrice ps u) (fun _ => stratByAltHash ps pid))) := by
  rcases hh : stratByHash ps pid with _ | p
  · rcases hn : stratByName ps n with _ | p
    · rcases hp : stratByPrice ps u with _ | p
      · unfold stratByHash at hh
        unfold stratByName at hn
        unfold stratByPrice at hp
        unfold resolveNumeric
        rw [hh, hn, hp]
        rfl
      · unfold stratByHash at hh
        unfold stratByName at hn
        unfold stratByPrice at hp
        unfold resolveNumeric
        rw [hh, hn, hp]
        rfl
    · unfold stratByHash at hh
      unfold stratByName at hn
      unfold resolveNumeric
      rw [hh, hn]
      rfl
  · unfold stratByHash at hh
    unfold resolveNumeric
    rw [hh]
    rfl

/-- A numeric cart line all of whose strategies miss is skipped. -/
theorem processItem_skip_of_unresolved (ps : List Product) (oid : Nat) (it : ItemReq) (pid : ℚ)
    (h1 : jsOrP it.product_id it.productId = some (.pnum pid))
    (h2 : qLE0 (coerceNum2 it.quantity it.qty) = false)
    (h3 : resolveNumeric ps pid (jsOrS it.product_name (jsOrS it.name ""))
            (coerceNum2 it.price it.unit_price) = none) :
    processItem ps oid it = none := by
  simp only [processItem, h1, h2, h3, Bool.false_eq_true, if_false]

/-- All-skipped payload: the order is still created, with zero items. -/
theorem createOrder_survives_all_misses (db : DB) (req : CreateReq) (now newOid : Nat)
    (nm : String) (tp : ℚ) (dev : String)
    (hn : requiredString req.name = some nm)
    (ht : requiredNumber req.totalPrice = some tp)
    (hd : requiredString req.device_id = some dev)
    (hp1 : enumBad req.payment validPayments = false)
    (hp2 : enumBad req.status validStatuses = false)
    (hp3 : enumBad req.type_ validTypes = false)
    (hsave : orderSaveOk db (buildOrder req now newOid nm tp dev) = true)
    (hall : ∀ it ∈ req.items, processItem db.products newOid it = none) :
    createOrder db req now newOid =
      ({ db with orders := db.orders ++ [buildOrder req now newOid nm tp dev] },
        CResp.created (buildOrder req now newOid nm tp dev) 0) := by
  have hdocs : req.items.filterMap (processItem db.products newOid) = [] :=
    List.filterMap_eq_nil_iff.mpr hall
  unfold createOrder
  rw [hn, ht, hd, hp1, hp2, hp3]
  simp only [Bool.false_eq_true, if_false, hsave, if_true, hdocs, List.isEmpty_nil]

/-- C4.  Fallback chain order: for a numeric identifier the resolution is
exactly fingerprint lookup, then exact-name match (usable hint only), then
exact-price match (finite positive hint only, first match), then the
alternate-hash scan, first hit winning; a line missing all strategies is
skipped, and an order whose lines all miss is still created (zero items
inserted) rather than aborted. -/
theorem C4_fallback_chain :
    (∀ (ps : List Product) (pid : ℚ) (n : String) (u : Option ℚ),
      resolveNumeric ps pid n u =
        Option.orElse (stratByHash ps pid) (fun _ =>
          Option.orElse (stratByName ps n) (fun _ =>
            Option.orElse (stratByPrice ps u) (fun _ => stratByAltHash ps pid))))
    ∧ (∀ (ps : List Product) (oid : Nat) (it : ItemReq) (pid : ℚ),
        jsOrP it.product_id it.productId = some (.pnum pid) →
        qLE0 (coerceNum2 it.quantity it.qty) = false →
        resolveNumeric ps pid (jsOrS it.product_name (jsOrS it.name ""))
          (coerceNum2 it.price it.unit_price) = none →
        processItem ps oid it = none)
    ∧ (∀ (db : DB) (req : CreateReq) (now newOid : Nat) (nm : String) (tp : ℚ) (dev : String),
        requiredString req.name = some nm →
        requiredNumber req.totalPrice = some tp →
        requiredString req.device_id = some dev →
        enumBad req.payment validPayments = false →
        enumBad req.status validStatuses = false →
        enumBad req.type_ validTypes = false →
        orderSaveOk db (buildOrder req now newOid nm tp dev) = true →
        (∀ it ∈ req.items, processItem db.products newOid it = none) →
        createOrder db req now newOid =
          ({ db with orders := db.orders ++ [buildOrder req now newOid nm tp dev] },
            CResp.created (buildOrder req now newOid nm tp dev) 0)) :=
  ⟨resolveNumeric_eq_chain, processItem_skip_of_unresolved, createOrder_survives_all_misses⟩

/-! ### Helper lemmas about createOrder results -/

/-- Any created response carries exactly the orderData document built from
the validated header fields. -/
theorem createOrder_created_eq (db : DB) (req : CreateReq) (now newOid : Nat)
    (o : OrderDoc) (k : Nat)
    (h : (createOrder db req now newOid).2 = CResp.created o k) :
    ∃ nm tp dev, requiredString req.name = some nm
      ∧ requiredNumber req.totalPrice = some tp
      ∧ requiredString req.device_id = some dev
      ∧ o = buildOrder req now newOid nm tp dev := by
  unfold createOrder at h
  rcases hn : requiredString req.name with _ | nm
  · simp [hn] at h
  rcases ht : requiredNumber req.totalPrice with _ | tp
  · simp [hn, ht] at h
  rcases hd : requiredString req.device_id with _ | dev
  · simp [hn, ht, hd] at h
  refine ⟨nm, tp, dev, rfl, rfl, rfl, ?_⟩
  simp only [hn, ht, hd] at h
  by_cases hb1 : enumBad req.payment validPayments
  · simp [hb1] at h
  by_cases hb2 : enumBad req.status validStatuses
  · simp [hb1, hb2] at h
  by_cases hb3 : enumBad req.type_ validTypes
  · simp [hb1, hb2, hb3] at h
  simp only [hb1, hb2, hb3, Bool.false_eq_true, if_false] at h
  by_cases hs : orderSaveOk db (buildOrder req now newOid nm tp dev)
  · simp only [hs, if_true] at h
    by_cases he : (req.items.filterMap (processItem db.products newOid)).isEmpty
    · simp only [he, if_true] at h
      cases h
      rfl
    · simp only [he, Bool.false_eq_true, if_false] at h
      by_cases hv : (req.items.filterMap (processItem db.products newOid)).all itemValid
      · simp only [hv, if_true] at h
        cases h
        rfl
      · simp only [hv, Bool.false_eq_true, if_false] at h
        cases h
  · simp [hs] at h

/-- When the coerced payload line total is finite, it is persisted as-is. -/
theorem processItem_total_finite (ps : List Product) (oid : Nat) (it : ItemReq)
    (d : OrderItemDoc) (t : ℚ)
    (hc : coerceNum2 it.total it.total_price = some t)
    (h : processItem ps oid it = some d) : d.total_price = some t := by
  simp only [processItem, hc] at h
  repeat' first
    | (cases h <;> rfl)
    | split at h

/-- When the coerced payload price is finite, it is persisted as-is (the
resolved product's price is never consulted). -/
theorem processItem_unit_finite (ps : List Product) (oid : Nat) (it : ItemReq)
    (d : OrderItemDoc) (q : ℚ)
    (hc : coerceNum2 it.price it.unit_price = some q)
    (h : processItem ps oid it = some d) : d.unit_price = some q := by
  simp only [processItem, hc] at h
  repeat' first
    | (cases h <;> rfl)
    | split at h

/-- In the numeric branch, a NaN price coercion is replaced by the resolved
product's current price. -/
theorem processItem_unit_nan (ps : List Product) (oid : Nat) (it : ItemReq)
    (d : OrderItemDoc) (pid : ℚ) (p : Product)
    (h1 : jsOrP it.product_id it.productId = some (.pnum pid))
    (hc : coerceNum2 it.price it.unit_price = none)
    (hr : resolveNumeric ps pid (jsOrS it.product_name (jsOrS it.name "")) none = some p)
    (h : processItem ps oid it = some d) : d.unit_price = some p.price := by
  simp only [processItem, h1, hc, hr] at h
  repeat' first
    | (cases h <;> rfl)
    | split at h

/-! ### C5: total invariant -/

/-- C5 counterexample.  An order created with totalPrice 100, discount 10
and no explicit net_total persists net_total = 100, not
totalPrice - discount = 90; its item (quantity 2, unit price 45, no
explicit line total) persists total_price = 0, not
quantity * unit_price = 90. -/
theorem C5_counterexample :
    ((createOrder exDB c5req 123456 7).1.orders.map
        (fun o => (o.net_total, o.totalPrice, o.discount))) = [(100, 100, 10)]
    ∧ ((createOrder exDB c5req 123456 7).1.orderItems.map
        (fun d => (d.total_price, d.quantity, d.unit_price))) = [(some 0, some 2, some 45)]
    ∧ (100 : ℚ) ≠ 100 - 10
    ∧ some (0 : ℚ) ≠ some ((2 : ℚ) * 45) :=
  ⟨by decide, by decide, by norm_num, by norm_num⟩

/-- C5 (amended).  When net_total is not supplied, the persisted net_total
equals totalPrice (it equals totalPrice - discount only when the discount
is zero); when a line total is not supplied, the persisted total_price is
the coerced default 0, not quantity * unit_price. -/
theorem C5_amended_totals :
    (∀ (db : DB) (req : CreateReq) (now newOid : Nat) (tp : ℚ) (o : OrderDoc) (k : Nat),
      requiredNumber req.totalPrice = some tp → req.net_total = none →
      (createOrder db req now newOid).2 = CResp.created o k → o.net_total = tp)
    ∧ (∀ (ps : List Product) (oid : Nat) (it : ItemReq) (d : OrderItemDoc),
        it.total = none → it.total_price = none →
        processItem ps oid it = some d → d.total_price = some 0) := by
  constructor
  · intro db req now newOid tp o k ht hnt h
    obtain ⟨nm, tp2, dev, _, ht2, _, ho⟩ := createOrder_created_eq db req now newOid o k h
    have htp : tp2 = tp := by
      rw [ht] at ht2
      exact (Option.some_inj.mp ht2).symm
    rw [ho, htp]
    unfold buildOrder
    rw [hnt]
  · intro ps oid it d h1 h2 h
    refine processItem_total_finite ps oid it d 0 ?_ h
    rw [h1, h2]
    rfl

/-- C5 witness for the amended theorem. -/
theorem C5_amended_witness :
    requiredNumber c8req.totalPrice = some 10 ∧ c8req.net_total = none
    ∧ (createOrder exDB c8req 123456 11).2
        = CResp.created (buildOrder c8req 123456 11 "Bob" 10 "dev1") 1
    ∧ (buildOrder c8req 123456 11 "Bob" 10 "dev1").net_total = 10 :=
  ⟨by decide, by decide, by decide,
    C5_amended_totals.1 exDB c8req 123456 11 10
      (buildOrder c8req 123456 11 "Bob" 10 "dev1") 1 (by decide) (by decide) (by decide)⟩

/-! ### C6: ownership enforcement -/

/-- C6 counterexample.  The order stores no device_id; a status update that
supplies one is rejected with the forbidden error (and nothing is mutated)
instead of the check being skipped and the update proceeding. -/
theorem C6_counterexample :
    c6order.device_id = none
    ∧ updateOrderPayment c6db 1 c6req = (c6db, UResp.forbidden) := by
  refine ⟨rfl, by decide⟩

/-- C6 (amended).  A supplied (nonempty) device_id that differs from the
order's stored device_id — including the case in which the order stores
none at all — fails with the forbidden error and mutates nothing; the
ownership pre-check is skipped only when the request supplies no (or an
empty) device_id. -/
theorem C6_amended_ownership :
    (∀ (db : DB) (oid : Nat) (req : UpdateReq) (o : OrderDoc) (d : String),
      enumBad req.payment validPayments = false →
      enumBad req.status validStatuses = false →
      req.device_id = some d → d ≠ "" →
      findOrder db oid = some o → o.device_id ≠ some d →
      updateOrderPayment db oid req = (db, UResp.forbidden))
    ∧ (∀ (db : DB) (oid : Nat) (req : UpdateReq),
        enumBad req.payment validPayments = false →
        enumBad req.status validStatuses = false →
        strTruthy req.device_id = false →
        updateOrderPayment db oid req = updateAfterChecks db oid req) := by
  constructor
  · intro db oid req o d h1 h2 hd hne hf hmis
    have htr : strTruthy req.device_id = true := by
      rw [hd]
      simpa [strTruthy] using hne
    have hmis2 : o.device_id ≠ req.device_id := by
      rw [hd]
      exact hmis
    unfold updateOrderPayment
    rw [h1, h2, htr, hf]
    simp only [Bool.false_eq_true, if_false, if_true]
    rw [if_pos hmis2]
  · intro db oid req h1 h2 h3
    unfold updateOrderPayment
    rw [h1, h2, h3]
    simp

/-- C6 witness for the amended theorem. -/
theorem C6_amended_witness :
    c6req.device_id = some "x" ∧ findOrder c6db 1 = some c6order
    ∧ c6order.device_id ≠ some "x"
    ∧ updateOrderPayment c6db 1 c6req = (c6db, UResp.forbidden) :=
  ⟨rfl, by decide, by decide,
    C6_amended_ownership.1 c6db 1 c6req c6order "x" (by decide) (by decide) rfl
      (by decide) (by decide) (by decide)⟩

/-! ### C7: create-order validation -/

/-- C7 counterexample.  A negative totalPrice (a number, but not > 0)
passes the request guard and is rejected only at save by the schema's
min-0 validator: the caller receives the generic server error, not a
validation (client) error; nothing is persisted either way. -/
theorem C7_counterexample :
    createOrder exDB c7req 123456 9 = (exDB, CResp.serverError)
    ∧ isValidationFailure CResp.serverError = false := by
  refine ⟨by decide, rfl⟩

/-- C7 (amended).  A missing or non-string or empty name, a missing,
zero or non-number totalPrice, or a missing/non-string/empty device_id,
each fails fast with a client validation error and nothing persisted; a
negative totalPrice instead passes the guard and fails schema validation
at save, surfacing as a generic server error, still with nothing
persisted. -/
theorem C7_amended_validation :
    (∀ (db : DB) (req : CreateReq) (now newOid : Nat),
      requiredString req.name = none →
      createOrder db req now newOid = (db, CResp.badRequest "Name is required"))
    ∧ (∀ (db : DB) (req : CreateReq) (now newOid : Nat) (nm : String),
        requiredString req.name = some nm →
        requiredNumber req.totalPrice = none →
        createOrder db req now newOid = (db, CResp.badRequest "Total price is required"))
    ∧ (∀ (db : DB) (req : CreateReq) (now newOid : Nat) (nm : String) (tp : ℚ),
        requiredString req.name = some nm →
        requiredNumber req.totalPrice = some tp →
        requiredString req.device_id = none →
        createOrder db req now newOid = (db, CResp.badRequest "Device ID is required"))
    ∧ (∀ (db : DB) (req : CreateReq) (now newOid : Nat) (nm : String) (tp : ℚ) (dev : String),
        requiredString req.name = some nm →
        requiredNumber req.totalPrice = some tp →
        requiredString req.device_id = some dev →
        enumBad req.payment validPayments = false →
        enumBad req.status validStatuses = false →
        enumBad req.type_ validTypes = false →
        tp < 0 →
        createOrder db req now newOid = (db, CResp.serverError)) := by
  refine ⟨?_, ?_, ?_, ?_⟩
  · intro db req now newOid hn
    unfold createOrder
    rw [hn]
  · intro db req now newOid nm hn ht
    unfold createOrder
    rw [hn, ht]
  · intro db req now newOid nm tp hn ht hd
    unfold createOrder
    rw [hn, ht, hd]
  · intro db req now newOid nm tp dev hn ht hd hb1 hb2 hb3 htp
    have hnot : ¬ (0 ≤ tp) := not_le.mpr htp
    have hsave : orderSaveOk db (buildOrder req now newOid nm tp dev) = false := by
      simp [orderSaveOk, buildOrder, hnot]
    unfold createOrder
    rw [hn, ht, hd, hb1, hb2, hb3]
    simp only [Bool.false_eq_true, if_false, hsave]

/-- C7 witness for the amended theorem. -/
theorem C7_amended_witness :
    requiredString c7req.name = some "Carol"
    ∧ requiredNumber c7req.totalPrice = some (-5)
    ∧ requiredString c7req.device_id = some "dev1"
    ∧ (-5 : ℚ) < 0
    ∧ createOrder exDB c7req 123456 9 = (exDB, CResp.serverError) :=
  ⟨by decide, by decide, by decide, by decide,
    C7_amended_validation.2.2.2 exDB c7req 123456 9 "Carol" (-5) "dev1"
      (by decide) (by decide) (by decide) (by decide) (by decide) (by decide) (by decide)⟩

/-! ### C8: unit-price sourcing -/

/-- C8 counterexample.  A surviving line with no payload price persists
unit_price 0, even though the resolved product's current price is 5: the
"otherwise use the product's price" branch does not fire for an absent
price (which coerces to the finite 0). -/
theorem C8_counterexample :
    ((createOrder exDB c8req 123456 8).1.orderItems.map (fun d => d.unit_price)) = [some 0]
    ∧ (exDB.products.map (fun p => p.price)) = [5]
    ∧ some (0 : ℚ) ≠ some (5 : ℚ) := by
  refine ⟨by decide, by decide, by decide⟩

/-- C8 (amended).  The persisted unit_price is the JS coercion
Number(price || unit_price || 0) whenever that coercion is finite — an
absent price therefore persists 0 — and the resolved product's current
price is consulted only when the coercion is NaN (a non-numeric truthy
payload value). -/
theorem C8_amended_unit_price :
    (∀ (ps : List Product) (oid : Nat) (it : ItemReq) (d : OrderItemDoc) (q : ℚ),
      coerceNum2 it.price it.unit_price = some q →
      processItem ps oid it = some d → d.unit_price = some q)
    ∧ (∀ (ps : List Product) (oid : Nat) (it : ItemReq) (d : OrderItemDoc) (pid : ℚ) (p : Product),
        jsOrP it.product_id it.productId = some (.pnum pid) →
        coerceNum2 it.price it.unit_price = none →
        resolveNumeric ps pid (jsOrS it.product_name (jsOrS it.name "")) none = some p →
        processItem ps oid it = some d → d.unit_price = some p.price) :=
  ⟨fun ps oid it d q hc h => processItem_unit_finite ps oid it d q hc h,
   fun ps oid it d pid p h1 hc hr h => processItem_unit_nan ps oid it d pid p h1 hc hr h⟩

/-- C8 witness for the amended theorem. -/
theorem C8_amended_witness :
    coerceNum2 c8witem.price c8witem.unit_price = some 45
    ∧ processItem exDB.products 7 c8witem
        = some { order_id := 7, product_id := exPid, quantity := some 2,
                 unit_price := some 45, total_price := some 0, product_name := "Milk",
                 variant_id := none, variant_name := none }
    ∧ ({ order_id := 7, product_id := exPid, quantity := some 2,
         unit_price := some 45, total_price := some 0, product_name := "Milk",
         variant_id := none, variant_name := none } : OrderItemDoc).unit_price = some 45 :=
  ⟨by decide, by decide,
    C8_amended_unit_price.1 exDB.products 7 c8witem _ 45 (by decide) (by decide)⟩

/-- C1 witness. -/
theorem C1_witness :
    findOrder wDB 1 = some wOrder ∧ wOrder.status = "Pending"
    ∧ stockOf (updateOrderPayment (updateOrderPayment wDB 1 wReq).1 1 wReq).1 exPid
        = (stockOf wDB exPid).map (fun s => s - totalDec (itemsOf wDB 1) exPid)
    ∧ ((updateOrderPayment (updateOrderPayment wDB 1 wReq).1 1 wReq).1).products
        = ((updateOrderPayment wDB 1 wReq).1).products :=
  ⟨by decide, rfl,
    ((C1_idempotent_processing wDB 1 wReq wOrder (by decide) rfl rfl (by decide)).2 rfl).1 exPid,
    ((C1_idempotent_processing wDB 1 wReq wOrder (by decide) rfl rfl (by decide)).2 rfl).2⟩

/-- C2 witness. -/
theorem C2_witness :
    findOrder wDB 99 = none
    ∧ updateOrderPayment wDB 99 wReq = (wDB, UResp.serverError) :=
  ⟨by decide, C2_transaction_atomicity.2 wDB 99 wReq rfl rfl (by decide) (by decide)⟩

/-- C9 witness: a track_stock = false product with stock 1 and an item of
quantity 5 (the stock goes negative), plus a zero-quantity item that is
skipped; diagnostics report 2 items processed and 1 stock update. -/
theorem C9_witness :
    w9prod.track_stock = false ∧ findOrder w9db 2 = some w9order
    ∧ (updateOrderPayment w9db 2 wReq).2
        = UResp.ok (applyFields w9order wReq)
            (some ((itemsOf w9db 2).length,
              ((itemsOf w9db 2).filter (fun it => 0 < qtyNum it)).length))
    ∧ (itemsOf w9db 2).length = 2
    ∧ ((itemsOf w9db 2).filter (fun it => 0 < qtyNum it)).length = 1
    ∧ stockOf (updateOrderPayment w9db 2 wReq).1 "p9"
        = (stockOf w9db "p9").map (fun s => s - totalDec (itemsOf w9db 2) "p9") :=
  ⟨rfl, by decide,
    (C9_decrement_ignores_track_stock w9db 2 wReq w9order (by decide) rfl rfl (by decide)
      (by decide)).1,
    by decide, by decide,
    (C9_decrement_ignores_track_stock w9db 2 wReq w9order (by decide) rfl rfl (by decide)
      (by decide)).2 "p9"⟩

set_option maxRecDepth 100000 in
/-- C4 witness. -/
theorem C4_witness :
    resolveNumeric exDB.products 999999999 "" (some 0)
      = Option.orElse (stratByHash exDB.products 999999999) (fun _ =>
          Option.orElse (stratByName exDB.products "") (fun _ =>
            Option.orElse (stratByPrice exDB.products (some 0)) (fun _ =>
              stratByAltHash exDB.products 999999999)))
    ∧ processItem exDB.products 12 c4witem = none
    ∧ createOrder exDB c4wreq 123456 12
        = ({ exDB with orders := exDB.orders ++ [buildOrder c4wreq 123456 12 "A" 10 "d"] },
            CResp.created (buildOrder c4wreq 123456 12 "A" 10 "d") 0) :=
  ⟨C4_fallback_chain.1 exDB.products 999999999 "" (some 0),
    C4_fallback_chain.2.1 exDB.products 12 c4witem 999999999 rfl (by decide) (by decide),
    C4_fallback_chain.2.2 exDB c4wreq 123456 12 "A" 10 "d" (by decide) (by decide) (by decide)
      (by decide) (by decide) (by decide) (by decide) (by decide)⟩

theorem lastDigits_length (k : Nat) : ∀ n, (lastDigits k n).length = k := by
  induction k with
  | zero => intro n; rfl
  | succ k ih => intro n; simp [lastDigits, ih]

theorem msbDigits_lt (n : Nat) (h : n < 10) : msbDigits n = [Nat.digitChar n] := by
  rw [msbDigits]
  simp [h]

theorem msbDigits_ge (n : Nat) (h : ¬ n < 10) :
    msbDigits n = msbDigits (n / 10) ++ [Nat.digitChar (n % 10)] := by
  rw [msbDigits]
  simp [h]

/-- The fueled core printer of Nat.repr agrees with msbDigits whenever the
fuel bounds the number. -/
theorem toDigitsCore_eq_msb :
    ∀ (f n : Nat) (ds : List Char), n < 10 ^ f → 0 < f →
      Nat.toDigitsCore 10 f n ds = msbDigits n ++ ds := by
  intro f
  induction f with
  | zero => intro n ds _ hf; omega
  | succ f ih =>
    intro n ds hn _
    by_cases h10 : n / 10 = 0
    · have hlt : n < 10 := by omega
      rw [msbDigits_lt n hlt]
      unfold Nat.toDigitsCore
      simp [h10, Nat.mod_eq_of_lt hlt]
    · have hlt : ¬ n < 10 := by
        intro hc
        exact h10 (Nat.div_eq_of_lt hc)
      have hdivlt : n / 10 < 10 ^ f := by
        rw [Nat.div_lt_iff_lt_mul (by norm_num)]
        calc n < 10 ^ (f + 1) := hn
        _ = 10 ^ f * 10 := pow_succ 10 f
      have hfpos : 0 < f := by
        rcases Nat.eq_zero_or_pos f with h0 | h0
        · subst h0
          simp at hdivlt
          omega
        · exact h0
      rw [msbDigits_ge n hlt]
      unfold Nat.toDigitsCore
      simp only [h10, if_false]
      rw [ih (n / 10) (Nat.digitChar (n % 10) :: ds) hdivlt hfpos]
      simp

/-- Nat.repr prints exactly the msbDigits characters. -/
theorem repr_eq_msb (n : Nat) : Nat.repr n = String.mk (msbDigits n) := by
  have hlt : n < 10 ^ (n + 1) :=
    lt_of_lt_of_le (Nat.lt_pow_self (by norm_num) n)
      (Nat.pow_le_pow_right (by norm_num) (Nat.le_succ n))
  show (Nat.toDigits 10 n).asString = String.mk (msbDigits n)
  unfold Nat.toDigits
  rw [toDigitsCore_eq_msb (n + 1) n [] hlt (Nat.succ_pos n), List.append_nil]
  rfl

/-- Splitting a decimal representation: for q > 0 and r < 10^k the digits of
q * 10^k + r are the digits of q followed by the k zero-padded digits of
r. -/
theorem msbDigits_mul_pow_add (k : Nat) :
    ∀ q r : Nat, 0 < q → r < 10 ^ k →
      msbDigits (q * 10 ^ k + r) = msbDigits q ++ lastDigits k r := by
  induction k with
  | zero =>
    intro q r _ hr
    have hr0 : r = 0 := by omega
    subst hr0
    simp [lastDigits]
  | succ k ih =>
    intro q r hq hr
    have hpow : (10:ℕ) ^ 1 ≤ 10 ^ (k + 1) := Nat.pow_le_pow_right (by norm_num) (by omega)
    have hqmul : 10 ^ (k + 1) ≤ q * 10 ^ (k + 1) := Nat.le_mul_of_pos_left _ hq
    have hge : ¬ (q * 10 ^ (k + 1) + r < 10) := by
      simp only [pow_one] at hpow
      omega
    rw [msbDigits_ge _ hge]
    have hdiv : (q * 10 ^ (k + 1) + r) / 10 = q * 10 ^ k + r / 10 := by
      rw [show q * 10 ^ (k + 1) + r = 10 * (q * 10 ^ k) + r by ring,
        Nat.mul_add_div (by norm_num)]
    have hmod : (q * 10 ^ (k + 1) + r) % 10 = r % 10 := by
      rw [show q * 10 ^ (k + 1) + r = 10 * (q * 10 ^ k) + r by ring]
      exact Nat.mul_add_mod 10 (q * 10 ^ k) r
    have hr10 : r / 10 < 10 ^ k := by
      rw [Nat.div_lt_iff_lt_mul (by norm_num)]
      calc r < 10 ^ (k + 1) := hr
      _ = 10 ^ k * 10 := pow_succ 10 k
    rw [hdiv, hmod, ih q (r / 10) hq hr10, List.append_assoc]
    rfl

/-- A number with exactly k+1 digits prints as its k+1 zero-padded last
digits. -/
theorem msbDigits_eq_lastDigits (k : Nat) :
    ∀ n, 10 ^ k ≤ n → n < 10 ^ (k + 1) → msbDigits n = lastDigits (k + 1) n := by
  induction k with
  | zero =>
    intro n h1 h2
    simp only [pow_zero] at h1
    simp only [zero_add, pow_one] at h2
    rw [msbDigits_lt n h2]
    show _ = lastDigits 0 (n / 10) ++ [Nat.digitChar (n % 10)]
    rw [Nat.mod_eq_of_lt h2]
    rfl
  | succ k ih =>
    intro n h1 h2
    have h10 : ¬ n < 10 := by
      have hpow : (10:ℕ) ^ 1 ≤ 10 ^ (k + 1) := Nat.pow_le_pow_right (by norm_num) (by omega)
      simp only [pow_one] at hpow
      omega
    rw [msbDigits_ge n h10]
    have ha : 10 ^ k ≤ n / 10 := by
      rw [Nat.le_div_iff_mul_le (by norm_num)]
      calc 10 ^ k * 10 = 10 ^ (k + 1) := (pow_succ 10 k).symm
      _ ≤ n := h1
    have hb : n / 10 < 10 ^ (k + 1) := by
      rw [Nat.div_lt_iff_lt_mul (by norm_num)]
      calc n < 10 ^ (k + 2) := h2
      _ = 10 ^ (k + 1) * 10 := pow_succ 10 (k + 1)
    rw [ih (n / 10) ha hb]
    rfl

/-- The zero-padded last k digits depend only on the value modulo 10^k. -/
theorem lastDigits_mod (k : Nat) : ∀ n, lastDigits k (n % 10 ^ k) = lastDigits k n := by
  induction k with
  | zero => intro n; rfl
  | succ k ih =>
    intro n
    show lastDigits k (n % 10 ^ (k + 1) / 10) ++ [Nat.digitChar (n % 10 ^ (k + 1) % 10)]
      = lastDigits k (n / 10) ++ [Nat.digitChar (n % 10)]
    have hdiv : n % 10 ^ (k + 1) / 10 = n / 10 % 10 ^ k := by
      rw [show (10:ℕ) ^ (k + 1) = 10 * 10 ^ k by ring]
      exact Nat.mod_mul_right_div_self n 10 (10 ^ k)
    have hmod : n % 10 ^ (k + 1) % 10 = n % 10 := by
      exact Nat.mod_mod_of_dvd n (dvd_pow_self 10 (Nat.succ_ne_zero k))
    rw [hdiv, hmod, ih (n / 10)]

/-- For any realistic (at least six-digit) millisecond timestamp the
generated code is ORD followed by the zero-padded value of the timestamp
modulo one million. -/
theorem genOrderCode_eq (t : Nat) (h : 100000 ≤ t) :
    genOrderCode t = "ORD" ++ String.mk (lastDigits 6 (t % 1000000)) := by
  unfold genOrderCode
  rw [repr_eq_msb]
  show "ORD" ++ String.mk ((msbDigits t).drop ((msbDigits t).length - 6)) = _
  by_cases h6 : t < 1000000
  · have hmsb : msbDigits t = lastDigits 6 t := by
      have := msbDigits_eq_lastDigits 5 t (by norm_num; omega) (by norm_num; omega)
      exact this
    rw [hmsb, lastDigits_length, Nat.mod_eq_of_lt h6]
    simp
  · have hq : 0 < t / 1000000 := Nat.div_pos (le_of_not_lt h6) (by norm_num)
    have hsplit : t = t / 1000000 * 10 ^ 6 + t % 1000000 := by
      have := Nat.div_add_mod t 1000000
      norm_num
      omega
    have hmsb : msbDigits t = msbDigits (t / 1000000) ++ lastDigits 6 (t % 1000000) := by
      conv_lhs => rw [hsplit]
      exact msbDigits_mul_pow_add 6 (t / 1000000) (t % 1000000) hq
        (by norm_num; exact Nat.mod_lt t (by norm_num))
    rw [hmsb, List.length_append, lastDigits_length]
    rw [show (msbDigits (t / 1000000)).length + 6 - 6 = (msbDigits (t / 1000000)).length
      from by omega]
    rw [List.drop_left]

/-- C10 (implicit).  The generated order code is the string ORD followed by
exactly the last six decimal digits of the creation-time epoch-millisecond
timestamp (nine characters in all); timestamps congruent modulo 10^6
produce identical codes, so the generator alone does not guarantee
uniqueness — the unique index (modelled inside the save validation) is
what rejects a duplicate code, as a generic server error. -/
theorem C10_order_code :
    (∀ t : Nat, 100000 ≤ t →
      genOrderCode t = "ORD" ++ String.mk (lastDigits 6 (t % 1000000))
      ∧ (genOrderCode t).length = 9)
    ∧ (∀ t1 t2 : Nat, 100000 ≤ t1 → 100000 ≤ t2 → t1 % 1000000 = t2 % 1000000 →
        genOrderCode t1 = genOrderCode t2)
    ∧ (∀ (db : DB) (req : CreateReq) (now newOid : Nat) (nm : String) (tp : ℚ) (dev : String),
        requiredString req.name = some nm →
        requiredNumber req.totalPrice = some tp →
        requiredString req.device_id = some dev →
        enumBad req.payment validPayments = false →
        enumBad req.status validStatuses = false →
        enumBad req.type_ validTypes = false →
        (∃ o2 ∈ db.orders, o2.order_code = genOrderCode now) →
        createOrder db req now newOid = (db, CResp.serverError)) := by
  refine ⟨?_, ?_, ?_⟩
  · intro t ht
    refine ⟨genOrderCode_eq t ht, ?_⟩
    rw [genOrderCode_eq t ht, String.length_append]
    have : (String.mk (lastDigits 6 (t % 1000000))).length = 6 := by
      simp [String.length, lastDigits_length]
    rw [this]
    rfl
  · intro t1 t2 h1 h2 hmod
    rw [genOrderCode_eq t1 h1, genOrderCode_eq t2 h2, hmod]
  · intro db req now newOid nm tp dev hn ht hd hb1 hb2 hb3 hdup
    obtain ⟨o2, ho2, hcode⟩ := hdup
    have hall : db.orders.all (fun x => x.order_code ≠ genOrderCode now) = false := by
      rw [List.all_eq_false]
      exact ⟨o2, ho2, by simp [hcode]⟩
    have hsave : orderSaveOk db (buildOrder req now newOid nm tp dev) = false := by
      unfold orderSaveOk buildOrder
      simp only [hall]
      simp
    unfold createOrder
    rw [hn, ht, hd, hb1, hb2, hb3]
    simp only [Bool.false_eq_true, if_false, hsave]

/-- C10 witness: two timestamps congruent modulo 10^6 share the code. -/
theorem C10_witness :
    (100000 : Nat) ≤ 1700000123456 ∧ (100000 : Nat) ≤ 123456
    ∧ 1700000123456 % 1000000 = 123456 % 1000000
    ∧ genOrderCode 1700000123456
        = "ORD" ++ String.mk (lastDigits 6 (1700000123456 % 1000000))
    ∧ (genOrderCode 1700000123456).length = 9
    ∧ genOrderCode 1700000123456 = genOrderCode 123456 :=
  ⟨by decide, by decide, by decide,
    (C10_order_code.1 1700000123456 (by decide)).1,
    (C10_order_code.1 1700000123456 (by decide)).2,
    C10_order_code.2.1 1700000123456 123456 (by decide) (by decide) (by decide)⟩

end Midwest

